import Mathlib

/-!
Shallow embedding of the OBS `text_gdiplus` source plugin
(`plugins/obs-text/gdiplus/obs-text.cpp`) and proofs about its
configuration-update, layout, color-normalization and texture-lifecycle
logic.

Modelling conventions:
* C `uint32_t` values are `Nat` (with explicit `% 2^32` where overflow can
  occur); Windows `LONG` (32-bit signed) values are `Int`, with the
  `uint32 → LONG` conversion made explicit by `toLONG`.
* C `float` quantities (the GDI+ measured bounding box, outline size) are
  modelled as `ℚ`; the float→LONG cast (truncation toward zero) is `ctrunc`.
  The measured text bounding box returned by the external GDI+
  `MeasureString` call is a free parameter of the layout function.
* External collaborators (UTF-8→wide conversion, file reading, GDI+ drawing,
  the libobs texture API) are modelled at their interfaces: text content is
  an abstract character list, file contents arrive as a parameter, and
  texture create/destroy/update calls are recorded as an event list with
  texture handles drawn from a fresh-id counter.
-/

namespace ObsText

/-! ### Machine-integer conversions -/

/-- Conversion of a `uint32_t` value to a Windows `LONG` (32-bit signed),
as performed by the casts `LONG(extents_cx)` and `(LONG)cx` in the source. -/
def toLONG (n : Nat) : Int :=
  if n % 2 ^ 32 < 2 ^ 31 then (n % 2 ^ 32 : Nat) else (n % 2 ^ 32 : Nat) - 2 ^ 32

/-- Conversion of a `LONG` value to `uint32_t` (reduction mod 2^32), as in
`cx = (uint32_t)size.cx`. -/
def toU32 (i : Int) : Nat := (i % 2 ^ 32).toNat

/-- Conversion of an `int64_t` to a 32-bit `int`, as in
`face_size = (int)font_size`. -/
def toInt32 (i : Int) : Int := (i + 2 ^ 31) % 2 ^ 32 - 2 ^ 31

/-- C cast from a floating-point value to `LONG`: truncation toward zero. -/
def ctrunc (q : ℚ) : Int := if 0 ≤ q then ⌊q⌋ else -⌊-q⌋

/-- `EPSILON` from `libobs/graphics/math-defs.h` (`1e-4f`), used as the
truncation bias in `CalculateTextSizes`. -/
def EPSILON : ℚ := 1 / 10000

/-! ### Color helpers (source lines 85-110) -/

/-- `get_alpha_val`: `((opacity * 255 / 100) & 0xFF) << 24` in `uint32_t`
arithmetic (the multiplication reduced mod 2^32). -/
def get_alpha_val (opacity : Nat) : Nat :=
  ((opacity * 255 % 2 ^ 32 / 100) &&& 0xFF) <<< 24

/-- `calc_color`: `color & 0xFFFFFF | get_alpha_val(opacity)`. -/
def calc_color (color opacity : Nat) : Nat :=
  (color &&& 0xFFFFFF) ||| get_alpha_val opacity

/-- `rgb_to_bgr`: `((rgb & 0xFF) << 16) | (rgb & 0xFF00) | ((rgb & 0xFF0000) >> 16)`. -/
def rgb_to_bgr (rgb : Nat) : Nat :=
  ((rgb &&& 0xFF) <<< 16) ||| (rgb &&& 0xFF00) ||| ((rgb &&& 0xFF0000) >>> 16)

/-! ### Alignment enums and their parsing (source lines 143-153, 542-554) -/

/-- The `Align` enum. -/
inductive Align where
  | Left
  | Center
  | Right
deriving DecidableEq, Repr

/-- The `VAlign` enum. -/
inductive VAlign where
  | Top
  | Center
  | Bottom
deriving DecidableEq, Repr

/-- The alignment-string normalization in `TextSource::Update`:
`strcmp` against `"center"` then `"right"`, defaulting to `Left`. -/
def alignFromStr (s : String) : Align :=
  if s = "center" then Align.Center
  else if s = "right" then Align.Right
  else Align.Left

/-- The vertical-alignment-string normalization in `TextSource::Update`:
`strcmp` against `"center"` then `"bottom"`, defaulting to `Top`. -/
def valignFromStr (s : String) : VAlign :=
  if s = "center" then VAlign.Center
  else if s = "bottom" then VAlign.Bottom
  else VAlign.Top

/-! ### `CalculateTextSizes` (source lines 308-384) -/

/-- The fields of `TextSource` that `CalculateTextSizes` reads. -/
structure TSParams where
  textEmpty : Bool
  vertical : Bool
  use_extents : Bool
  wrap : Bool
  use_outline : Bool
  outline_size : ℚ
  face_size : Int
  extents_cx : Nat
  extents_cy : Nat
deriving DecidableEq, Repr

/-- The measured bounding-box dimensions after the measurement block
(source lines 314-345): zero for empty text; the raw `MeasureString`
result `(mw, mh)` in extents+wrap mode; otherwise the `MeasureString`
result inflated by the outline size when the outline is enabled. -/
def boundingDims (p : TSParams) (mw mh : ℚ) : ℚ × ℚ :=
  if p.textEmpty then (0, 0)
  else if p.use_extents && p.wrap then (mw, mh)
  else if p.use_outline then (mw + p.outline_size, mh + p.outline_size)
  else (mw, mh)

/-- The `text_size` computation before the extents adjustment
(source lines 347-365): the dimension on the text's thickness axis is
floored at `face_size`, the other is the truncated measured value plus
`EPSILON`. -/
def sizeFromBox (p : TSParams) (mw mh : ℚ) : Int × Int :=
  let bb := boundingDims p mw mh
  if p.vertical then
    if bb.1 < (p.face_size : ℚ) then
      (p.face_size, ctrunc (bb.2 + EPSILON))
    else
      (ctrunc (bb.1 + EPSILON), ctrunc (bb.2 + EPSILON))
  else
    if bb.2 < (p.face_size : ℚ) then
      (ctrunc (bb.1 + EPSILON), p.face_size)
    else
      (ctrunc (bb.1 + EPSILON), ctrunc (bb.2 + EPSILON))

/-- The extents adjustment (source lines 367-377): with wrap the extents
replace both dimensions; without wrap the width is replaced when the
extents width exceeds it, and only otherwise is the height compared. -/
def extentsStep (p : TSParams) (sz : Int × Int) : Int × Int :=
  if p.use_extents then
    if p.wrap then (toLONG p.extents_cx, toLONG p.extents_cy)
    else if toLONG p.extents_cx > sz.1 then (toLONG p.extents_cx, sz.2)
    else if toLONG p.extents_cy > sz.2 then (sz.1, toLONG p.extents_cy)
    else sz
  else sz

/-- `text_size.cx += text_size.cx % 2` (source lines 379-380), with the C
truncating `%` on `LONG`. -/
def evenize (x : Int) : Int := x + Int.tmod x 2

/-- The `clamp` macro (source lines 74-78):
`if (val < min) val = min; else if (val > max) val = max;`. -/
def cclamp (x lo hi : Int) : Int :=
  if x < lo then lo else if x > hi then hi else x

/-- `TextSource::CalculateTextSizes`, returning the final `text_size`
(canvas dimensions). `mw`/`mh` are the width/height written to
`bounding_box` by the external GDI+ `MeasureString` call. -/
def CalculateTextSizes (p : TSParams) (mw mh : ℚ) : Int × Int :=
  let sz := extentsStep p (sizeFromBox p mw mh)
  (cclamp (evenize sz.1) 32 8192, cclamp (evenize sz.2) 32 8192)

/-! ### Texture lifecycle (source lines 399-480) -/

/-- Observable libobs texture operations performed by `RenderText`. -/
inductive TexEvent where
  | destroy (id : Nat)
  | create (id : Nat)
  | setImage (id : Nat)
deriving DecidableEq, Repr

/-- Result of the texture-synchronization tail of `RenderText`
(source lines 461-479). -/
structure SyncResult where
  tex : Option Nat
  cx : Nat
  cy : Nat
  nextId : Nat
  events : List TexEvent
deriving DecidableEq, Repr

/-- The texture-synchronization tail of `RenderText` (source lines 461-479):
`if (!tex || (LONG)cx != size.cx || (LONG)cy != size.cy)` destroy the old
texture (if any), call `gs_texture_create` (success modelled by `createOk`;
the fresh handle is `nextId`) and store the new dimensions; otherwise call
`gs_texture_set_image` on the existing texture in place. -/
def syncTexture (tex : Option Nat) (cx cy nextId : Nat) (szx szy : Int)
    (createOk : Bool) : SyncResult :=
  if tex = none ∨ toLONG cx ≠ szx ∨ toLONG cy ≠ szy then
    { tex := if createOk then some nextId else none
      cx := toU32 szx
      cy := toU32 szy
      nextId := nextId + 1
      events := (match tex with
                 | some t => [TexEvent.destroy t]
                 | none => []) ++ [TexEvent.create nextId] }
  else
    match tex with
    | some t => { tex := some t, cx := cx, cy := cy, nextId := nextId
                  events := [TexEvent.setImage t] }
    | none => { tex := none, cx := cx, cy := cy, nextId := nextId
                events := [] }

/-! ### The `TextSource` state and its operations -/

/-- The persistent fields of `struct TextSource` (source lines 155-195),
with GDI handles omitted and the texture handle abstracted to an id;
`nextId` is the fresh-handle counter of the texture model. -/
structure TextSource where
  text : List Char
  tex : Option Nat
  cx : Nat
  cy : Nat
  read_from_file : Bool
  file : String
  face : String
  face_size : Int
  color : Nat
  opacity : Nat
  bk_color : Nat
  bk_opacity : Nat
  align : Align
  valign : VAlign
  bold : Bool
  italic : Bool
  underline : Bool
  strikeout : Bool
  vertical : Bool
  use_outline : Bool
  outline_size : ℚ
  outline_color : Nat
  outline_opacity : Nat
  use_extents : Bool
  wrap : Bool
  extents_cx : Nat
  extents_cy : Nat
  nextId : Nat
deriving DecidableEq, Repr

/-- The in-class member initializers of `struct TextSource`
(source lines 155-195). -/
def initTextSource : TextSource where
  text := []
  tex := none
  cx := 0
  cy := 0
  read_from_file := false
  file := ""
  face := ""
  face_size := 0
  color := 0xFFFFFF
  opacity := 100
  bk_color := 0
  bk_opacity := 0
  align := Align.Left
  valign := VAlign.Top
  bold := false
  italic := false
  underline := false
  strikeout := false
  vertical := false
  use_outline := false
  outline_size := 0
  outline_color := 0
  outline_opacity := 100
  use_extents := false
  wrap := false
  extents_cx := 0
  extents_cy := 0
  nextId := 0

/-- The `TSParams` view of a `TextSource`, i.e. the fields
`CalculateTextSizes` reads from `this`. -/
def tsParamsOf (st : TextSource) : TSParams where
  textEmpty := st.text.isEmpty
  vertical := st.vertical
  use_extents := st.use_extents
  wrap := st.wrap
  use_outline := st.use_outline
  outline_size := st.outline_size
  face_size := st.face_size
  extents_cx := st.extents_cx
  extents_cy := st.extents_cy

/-- `TextSource::RenderText` (source lines 399-480) at the state level:
compute the canvas size via `CalculateTextSizes` (with the external
measurement `(mw, mh)`) and synchronize the texture. The pixel drawing
itself has no effect on the persistent state. -/
def RenderText (st : TextSource) (mw mh : ℚ) (createOk : Bool) :
    TextSource × List TexEvent :=
  let sz := CalculateTextSizes (tsParamsOf st) mw mh
  let r := syncTexture st.tex st.cx st.cy st.nextId sz.1 sz.2 createOk
  ({ st with tex := r.tex, cx := r.cx, cy := r.cy, nextId := r.nextId },
   r.events)

/-- The raw configuration record read from `obs_data` at the top of
`TextSource::Update` (source lines 486-502). `fileContent` is what the
external `os_quick_read_utf8_file` collaborator returns for `file`
(empty on failure); the UTF-8→wide conversion `to_wide` is modelled as
the identity on abstract character content. -/
structure Settings where
  text : List Char
  use_file : Bool
  file : String
  fileContent : List Char
  font_face : String
  font_size : Int
  font_flags : Nat
  color : Nat
  opacity : Nat
  align : String
  valign : String
  vertical : Bool
  outline : Bool
  o_color : Nat
  o_opacity : Nat
  o_size : Nat
deriving DecidableEq, Repr

/-- The trailing-text adjustment in `TextSource::Update`
(source lines 532-535): `if (!text.empty()) { text.push_back('\n');
text.pop_back(); }`. -/
def storedText (t : List Char) : List Char :=
  if t = [] then t else (t ++ ['\n']).dropLast

/-- The configuration-field assignments of `TextSource::Update`
(source lines 504-554), before `UpdateFont`/`RenderText` run. -/
def updateConfig (st : TextSource) (s : Settings) : TextSource :=
  { st with
    face := s.font_face
    face_size := toInt32 s.font_size
    bold := s.font_flags &&& 1 ≠ 0
    italic := s.font_flags &&& 2 ≠ 0
    underline := s.font_flags &&& 4 ≠ 0
    strikeout := s.font_flags &&& 8 ≠ 0
    color := rgb_to_bgr s.color
    opacity := s.opacity
    vertical := s.vertical
    read_from_file := s.use_file
    file := if s.use_file then s.file else st.file
    text := storedText (if s.use_file then s.fileContent else s.text)
    use_outline := s.outline
    outline_color := rgb_to_bgr s.o_color
    outline_opacity := s.o_opacity
    outline_size := (s.o_size : ℚ)
    align := alignFromStr s.align
    valign := valignFromStr s.valign }

/-- `TextSource::Update` (source lines 484-564): assign the configuration
fields, then run `RenderText` (`UpdateFont` only touches the GDI font
handles, which are external to this model). -/
def Update (st : TextSource) (s : Settings) (mw mh : ℚ) (createOk : Bool) :
    TextSource × List TexEvent :=
  RenderText (updateConfig st s) mw mh createOk

/-- `TextSource::Render` (source lines 566-574): returns `none` (no draw
call) when no texture exists, otherwise the `gs_draw_sprite` arguments
(texture handle, `cx`, `cy`). -/
def Render (st : TextSource) : Option (Nat × Nat × Nat) :=
  match st.tex with
  | none => none
  | some t => some (t, st.cx, st.cy)

/-- `get_width` host callback (source lines 702-705). -/
def get_width (st : TextSource) : Nat := st.cx

/-- `get_height` host callback (source lines 706-709). -/
def get_height (st : TextSource) : Nat := st.cy

/-- States of a `TextSource` reachable through the public configuration
interface: the constructor runs `Update` on the member-initialized state,
and every subsequent `obs_source_update` runs `Update` again. The
measurement results and texture-creation outcomes are arbitrary. -/
inductive Reachable : TextSource → Prop where
  | init : ∀ (s : Settings) (mw mh : ℚ) (ok : Bool),
      Reachable (Update initTextSource s mw mh ok).1
  | step : ∀ {st} (s : Settings) (mw mh : ℚ) (ok : Bool),
      Reachable st → Reachable (Update st s mw mh ok).1

/-! ### Concrete configurations used in witnesses and counterexamples -/

/-- Extents-wrap layout parameters with odd width 33 and small height 10. -/
def pOddExtents : TSParams where
  textEmpty := false
  vertical := false
  use_extents := true
  wrap := true
  use_outline := false
  outline_size := 0
  face_size := 0
  extents_cx := 33
  extents_cy := 10

/-- Extents-wrap layout parameters with even in-range extents (100, 50). -/
def pEvenExtents : TSParams where
  textEmpty := false
  vertical := false
  use_extents := true
  wrap := true
  use_outline := false
  outline_size := 0
  face_size := 0
  extents_cx := 100
  extents_cy := 50

/-- Auto-size layout parameters (no extents), horizontal text. -/
def pAuto : TSParams where
  textEmpty := false
  vertical := false
  use_extents := false
  wrap := false
  use_outline := false
  outline_size := 0
  face_size := 22
  extents_cx := 0
  extents_cy := 0

/-- A configuration record whose typed text ends in a single newline. -/
def sNewline : Settings where
  text := ['a', '\n']
  use_file := false
  file := ""
  fileContent := []
  font_face := "Arial"
  font_size := 22
  font_flags := 0
  color := 0x123456
  opacity := 100
  align := "left"
  valign := "top"
  vertical := false
  outline := false
  o_color := 0xABCDEF
  o_opacity := 50
  o_size := 2

/-- A plain configuration record with unrecognized alignment strings. -/
def sPlain : Settings where
  text := ['h', 'i']
  use_file := false
  file := ""
  fileContent := []
  font_face := "Arial"
  font_size := 22
  font_flags := 3
  color := 0x123456
  opacity := 100
  align := "justify"
  valign := "middle"
  vertical := false
  outline := false
  o_color := 0xABCDEF
  o_opacity := 50
  o_size := 2

/-- The alpha computation as claim C4's words state it: a half-up rounding
of `opacity * 255 / 100`, masked to `0xFF`, placed in the top byte. Stated
from the spec's words only to compare against the source's
`get_alpha_val`. -/
def specAlphaVal (op : ℕ) : ℕ :=
  ((⌊(op * 255 : ℚ) / 100 + 1 / 2⌋).toNat &&& 0xFF) <<< 24

/-- A `TextSource` state holding texture handle 5 at canvas (100, 50),
whose layout parameters reproduce canvas (100, 50). -/
def stTex : TextSource :=
  { initTextSource with
    text := ['h', 'i']
    tex := some 5
    cx := 100
    cy := 50
    use_extents := true
    wrap := true
    extents_cx := 100
    extents_cy := 50
    nextId := 6 }

/-! ### Arithmetic helper lemmas -/

lemma and_255_eq_mod (x : ℕ) : x &&& 255 = x % 256 := by
  have h := Nat.and_pow_two_sub_one_eq_mod x 8
  norm_num at h
  exact h

lemma and_shiftLeft_comm (x m k : ℕ) :
    x &&& (m <<< k) = ((x >>> k) &&& m) <<< k := by
  apply Nat.eq_of_testBit_eq
  intro i
  simp only [Nat.testBit_and, Nat.testBit_shiftLeft, Nat.testBit_shiftRight]
  by_cases h : k ≤ i
  · have h2 : k + (i - k) = i := by omega
    simp [ge_iff_le, h, h2, Bool.and_left_comm]
  · simp [ge_iff_le, h]

lemma or_add_of_lt {k b : ℕ} (a : ℕ) (hb : b < 2 ^ k) :
    (a * 2 ^ k) ||| b = a * 2 ^ k + b := by
  rw [Nat.mul_comm]
  exact (Nat.mul_add_lt_is_or hb a).symm

lemma rgb_to_bgr_eq (n : ℕ) :
    rgb_to_bgr n = n % 256 * 65536 + n / 256 % 256 * 256 + n / 65536 % 256 := by
  unfold rgb_to_bgr
  have h1 : n &&& 0xFF = n % 256 := and_255_eq_mod n
  have h2 : n &&& 0xFF00 = n / 256 % 256 * 256 := by
    have e : (0xFF00 : ℕ) = 255 <<< 8 := by norm_num [Nat.shiftLeft_eq]
    rw [e, and_shiftLeft_comm, and_255_eq_mod, Nat.shiftLeft_eq,
      Nat.shiftRight_eq_div_pow]
  have h3 : (n &&& 0xFF0000) >>> 16 = n / 65536 % 256 := by
    have e : (0xFF0000 : ℕ) = 255 <<< 16 := by norm_num [Nat.shiftLeft_eq]
    rw [e, and_shiftLeft_comm, and_255_eq_mod, Nat.shiftLeft_eq,
      Nat.shiftRight_eq_div_pow, Nat.shiftRight_eq_div_pow,
      Nat.mul_div_cancel _ (show 0 < 2 ^ 16 by norm_num)]
  rw [h1, h2, h3, Nat.shiftLeft_eq]
  have hY : n / 256 % 256 * 256 < 2 ^ 16 := by
    have := Nat.mod_lt (n / 256) (show 0 < 256 by norm_num)
    omega
  have hZ : n / 65536 % 256 < 2 ^ 8 := by
    have := Nat.mod_lt (n / 65536) (show 0 < 256 by norm_num)
    omega
  rw [or_add_of_lt _ hY]
  have e2 : n % 256 * 2 ^ 16 + n / 256 % 256 * 256 =
      (n % 256 * 256 + n / 256 % 256) * 2 ^ 8 := by ring
  rw [e2, or_add_of_lt _ hZ]
  ring

lemma rgb_to_bgr_bytes (r g b : ℕ) (hr : r < 256) (hg : g < 256)
    (hb : b < 256) :
    rgb_to_bgr (r * 65536 + g * 256 + b) = b * 65536 + g * 256 + r := by
  rw [rgb_to_bgr_eq]
  omega

lemma rgb_to_bgr_invol (n : ℕ) (h : n < 2 ^ 24) :
    rgb_to_bgr (rgb_to_bgr n) = n := by
  rw [rgb_to_bgr_eq n,
    rgb_to_bgr_bytes (n % 256) (n / 256 % 256) (n / 65536 % 256)
      (Nat.mod_lt _ (by norm_num)) (Nat.mod_lt _ (by norm_num))
      (Nat.mod_lt _ (by norm_num))]
  have h' : n < 16777216 := by omega
  omega

lemma tmod_two_ofNat (n : ℕ) :
    Int.tmod (Int.ofNat n) 2 = Int.ofNat (n % 2) := rfl

lemma tmod_two_negSucc (n : ℕ) :
    Int.tmod (Int.negSucc n) 2 = -Int.ofNat ((n + 1) % 2) := rfl

lemma evenize_even (x : ℤ) : Even (evenize x) := by
  unfold evenize
  rw [Int.even_iff]
  rcases x with n | n
  · rw [tmod_two_ofNat]
    simp only [Int.ofNat_eq_natCast]
    omega
  · rw [tmod_two_negSucc, Int.negSucc_eq]
    simp only [Int.ofNat_eq_natCast]
    omega

lemma evenize_of_nonneg_odd (x : ℤ) (h0 : 0 ≤ x) (h1 : Odd x) :
    evenize x = x + 1 := by
  unfold evenize
  rw [Int.odd_iff] at h1
  rcases x with n | n
  · rw [tmod_two_ofNat]
    simp only [Int.ofNat_eq_natCast] at h1 ⊢
    omega
  · exact absurd h0 (Int.negSucc_lt_zero n).not_le

lemma evenize_of_even (x : ℤ) (h : Even x) : evenize x = x := by
  unfold evenize
  rw [Int.even_iff] at h
  rcases x with n | n
  · rw [tmod_two_ofNat]
    simp only [Int.ofNat_eq_natCast] at h ⊢
    omega
  · rw [tmod_two_negSucc]
    rw [Int.negSucc_eq] at h ⊢
    simp only [Int.ofNat_eq_natCast]
    omega

lemma cclamp_bounds (x lo hi : ℤ) (h : lo ≤ hi) :
    lo ≤ cclamp x lo hi ∧ cclamp x lo hi ≤ hi := by
  unfold cclamp
  split_ifs <;> omega

lemma cclamp_even (x : ℤ) (hx : Even x) : Even (cclamp x 32 8192) := by
  unfold cclamp
  split_ifs
  · exact ⟨16, rfl⟩
  · exact ⟨4096, rfl⟩
  · exact hx

lemma cclamp_of_mem (x : ℤ) (h1 : 32 ≤ x) (h2 : x ≤ 8192) :
    cclamp x 32 8192 = x := by
  unfold cclamp
  split_ifs <;> omega

lemma calc_dim_bounds (p : TSParams) (mw mh : ℚ) :
    (Even (CalculateTextSizes p mw mh).1 ∧
      32 ≤ (CalculateTextSizes p mw mh).1 ∧
      (CalculateTextSizes p mw mh).1 ≤ 8192) ∧
    (Even (CalculateTextSizes p mw mh).2 ∧
      32 ≤ (CalculateTextSizes p mw mh).2 ∧
      (CalculateTextSizes p mw mh).2 ≤ 8192) := by
  unfold CalculateTextSizes
  refine ⟨⟨cclamp_even _ (evenize_even _), ?_, ?_⟩,
    ⟨cclamp_even _ (evenize_even _), ?_, ?_⟩⟩
  · exact (cclamp_bounds _ 32 8192 (by norm_num)).1
  · exact (cclamp_bounds _ 32 8192 (by norm_num)).2
  · exact (cclamp_bounds _ 32 8192 (by norm_num)).1
  · exact (cclamp_bounds _ 32 8192 (by norm_num)).2

lemma toLONG_of_lt {n : ℕ} (h : n < 2 ^ 31) : toLONG n = n := by
  unfold toLONG
  rw [Nat.mod_eq_of_lt (by omega), if_pos h]

lemma toU32_of_mem {i : ℤ} (h0 : 0 ≤ i) (h1 : i < 2 ^ 32) :
    toU32 i = i.toNat := by
  unfold toU32
  rw [Int.emod_eq_of_lt h0 h1]

lemma toLONG_toU32 {i : ℤ} (h0 : 0 ≤ i) (h1 : i < 2 ^ 31) :
    toLONG (toU32 i) = i := by
  rw [toU32_of_mem h0 (by omega), toLONG_of_lt (by omega)]
  omega

lemma syncTexture_same (t cx cy nid : ℕ) (szx szy : Int) (ok : Bool)
    (h1 : toLONG cx = szx) (h2 : toLONG cy = szy) :
    syncTexture (some t) cx cy nid szx szy ok =
      { tex := some t, cx := cx, cy := cy, nextId := nid,
        events := [TexEvent.setImage t] } := by
  unfold syncTexture
  rw [if_neg (by simp [h1, h2])]

lemma syncTexture_recreate (tex : Option ℕ) (cx cy nid : ℕ) (szx szy : Int)
    (ok : Bool) (h : tex = none ∨ toLONG cx ≠ szx ∨ toLONG cy ≠ szy) :
    syncTexture tex cx cy nid szx szy ok =
      { tex := if ok then some nid else none
        cx := toU32 szx
        cy := toU32 szy
        nextId := nid + 1
        events := (match tex with
                   | some t => [TexEvent.destroy t]
                   | none => []) ++ [TexEvent.create nid] } := by
  unfold syncTexture
  rw [if_pos h]
  cases tex <;> rfl

lemma update_fields (st : TextSource) (s : Settings) (mw mh : ℚ) (ok : Bool) :
    (Update st s mw mh ok).1.use_extents = st.use_extents ∧
    (Update st s mw mh ok).1.wrap = st.wrap ∧
    (Update st s mw mh ok).1.extents_cx = st.extents_cx ∧
    (Update st s mw mh ok).1.extents_cy = st.extents_cy ∧
    (Update st s mw mh ok).1.color = rgb_to_bgr s.color ∧
    (Update st s mw mh ok).1.outline_color = rgb_to_bgr s.o_color ∧
    (Update st s mw mh ok).1.align = alignFromStr s.align ∧
    (Update st s mw mh ok).1.valign = valignFromStr s.valign ∧
    (Update st s mw mh ok).1.text =
      storedText (if s.use_file then s.fileContent else s.text) :=
  ⟨rfl, rfl, rfl, rfl, rfl, rfl, rfl, rfl, rfl⟩

lemma renderText_unfold (st : TextSource) (mw mh : ℚ) (ok : Bool) :
    RenderText st mw mh ok =
      ({ st with
          tex := (syncTexture st.tex st.cx st.cy st.nextId
              (CalculateTextSizes (tsParamsOf st) mw mh).1
              (CalculateTextSizes (tsParamsOf st) mw mh).2 ok).tex
          cx := (syncTexture st.tex st.cx st.cy st.nextId
              (CalculateTextSizes (tsParamsOf st) mw mh).1
              (CalculateTextSizes (tsParamsOf st) mw mh).2 ok).cx
          cy := (syncTexture st.tex st.cx st.cy st.nextId
              (CalculateTextSizes (tsParamsOf st) mw mh).1
              (CalculateTextSizes (tsParamsOf st) mw mh).2 ok).cy
          nextId := (syncTexture st.tex st.cx st.cy st.nextId
              (CalculateTextSizes (tsParamsOf st) mw mh).1
              (CalculateTextSizes (tsParamsOf st) mw mh).2 ok).nextId },
        (syncTexture st.tex st.cx st.cy st.nextId
            (CalculateTextSizes (tsParamsOf st) mw mh).1
            (CalculateTextSizes (tsParamsOf st) mw mh).2 ok).events) := rfl

lemma render_of_tex_none (st : TextSource) (h : st.tex = none) :
    Render st = none := by
  unfold Render
  rw [h]

/-! ### Claim theorems -/

/-- C1: for every configuration of `CalculateTextSizes` (any text, font,
alignment, vertical flag, outline, extents settings, and any measured
bounding box), the resulting canvas width and height are each even
integers in the inclusive range [32, 8192]; the function applies the
clamp after the even-rounding step, and the even-rounding sends every
nonnegative odd dimension to its successor. -/
theorem C1_canvas_even_clamped (p : TSParams) (mw mh : ℚ) :
    (Even (CalculateTextSizes p mw mh).1 ∧
      32 ≤ (CalculateTextSizes p mw mh).1 ∧
      (CalculateTextSizes p mw mh).1 ≤ 8192) ∧
    (Even (CalculateTextSizes p mw mh).2 ∧
      32 ≤ (CalculateTextSizes p mw mh).2 ∧
      (CalculateTextSizes p mw mh).2 ≤ 8192) ∧
    CalculateTextSizes p mw mh =
      (cclamp (evenize (extentsStep p (sizeFromBox p mw mh)).1) 32 8192,
       cclamp (evenize (extentsStep p (sizeFromBox p mw mh)).2) 32 8192) ∧
    (∀ x : ℤ, 0 ≤ x → Odd x → evenize x = x + 1) := by
  obtain ⟨h1, h2⟩ := calc_dim_bounds p mw mh
  exact ⟨h1, h2, rfl, fun x => evenize_of_nonneg_odd x⟩

/-- Witness for C1 at a concrete auto-size configuration with measured
box 50.5 × 20.5, and the even-rounding at the odd value 33. -/
theorem C1_canvas_even_clamped_witness :
    Even (CalculateTextSizes pAuto (101 / 2) (41 / 2)).1 ∧
    32 ≤ (CalculateTextSizes pAuto (101 / 2) (41 / 2)).1 ∧
    (CalculateTextSizes pAuto (101 / 2) (41 / 2)).1 ≤ 8192 ∧
    evenize 33 = 33 + 1 := by
  obtain ⟨⟨e1, e2, e3⟩, -, -, hodd⟩ :=
    C1_canvas_even_clamped pAuto (101 / 2) (41 / 2)
  exact ⟨e1, e2, e3, hodd 33 (by norm_num) ⟨16, by norm_num⟩⟩

/-- C2 (code behavior at the failing input): the trailing-text adjustment
in `TextSource::Update` pushes a newline and immediately pops it, so a
typed text ending in a single newline is stored unchanged, newline
included, contrary to the claimed stripping. -/
theorem C2_trailing_newline_not_stripped :
    (Update initTextSource sNewline 0 0 true).1.text = ['a', '\n'] ∧
    storedText ['a', '\n'] = ['a', '\n'] ∧
    (['a', '\n'] : List Char) ≠ ['a'] := by
  refine ⟨rfl, rfl, by decide⟩

/-- C4 counterexample: at opacity 1 the source computes alpha by
truncating division (`1 * 255 / 100 = 2`), not by rounding
(`round 2.55 = 3`), so the claimed formula fails. -/
theorem C4_alpha_round_counterexample : get_alpha_val 1 ≠ specAlphaVal 1 := by
  have h : specAlphaVal 1 = 50331648 := by
    unfold specAlphaVal
    have e : (⌊((1 : ℕ) * 255 : ℚ) / 100 + 1 / 2⌋ : ℤ) = 3 := by norm_num
    rw [e]
    rfl
  rw [h]
  decide

/-- C4 (amended): for every opacity in [0, 100], the alpha byte placed in
the top byte of the ARGB value is the floor (truncating division) of
`opacity * 255 / 100`, masked to `0xFF`; the pre-mask value never
exceeds 255. -/
theorem C4_alpha_floor (op : ℕ) (h : op ≤ 100) :
    get_alpha_val op = ((⌊(op * 255 : ℚ) / 100⌋).toNat &&& 0xFF) <<< 24 ∧
    (⌊(op * 255 : ℚ) / 100⌋).toNat ≤ 255 := by
  have e : ⌊(op * 255 : ℚ) / 100⌋ = ((op * 255 / 100 : ℕ) : ℤ) := by
    rw [show ((op * 255 : ℚ)) = ((op * 255 : ℕ) : ℚ) by push_cast; ring,
      show ((100 : ℚ)) = ((100 : ℕ) : ℚ) by norm_num]
    exact Rat.floor_natCast_div_natCast (op * 255) 100
  have e2 : (((op * 255 / 100 : ℕ) : ℤ)).toNat = op * 255 / 100 := by omega
  constructor
  · rw [e, e2]
    unfold get_alpha_val
    rw [Nat.mod_eq_of_lt (show op * 255 < 2 ^ 32 by omega)]
  · rw [e, e2]
    omega

/-- Witness for C4 at opacity 40: the computed alpha value and the
floor-formula value coincide. -/
theorem C4_alpha_floor_witness :
    get_alpha_val 40 = ((⌊((40 : ℕ) * 255 : ℚ) / 100⌋).toNat &&& 0xFF) <<< 24 :=
  (C4_alpha_floor 40 (by norm_num)).1

/-- C5: the color permutation maps every 24-bit `0xRRGGBB` to `0xBBGGRR`
(red and blue swapped, green unchanged), is an involution on 24-bit
values, and `TextSource::Update` stores exactly one application of it in
both the fill color and the outline color. -/
theorem C5_color_permutation (r g b n : ℕ) (hr : r < 256) (hg : g < 256)
    (hb : b < 256) (hn : n < 2 ^ 24) (st : TextSource) (s : Settings)
    (mw mh : ℚ) (ok : Bool) :
    rgb_to_bgr (r * 65536 + g * 256 + b) = b * 65536 + g * 256 + r ∧
    rgb_to_bgr (rgb_to_bgr n) = n ∧
    (Update st s mw mh ok).1.color = rgb_to_bgr s.color ∧
    (Update st s mw mh ok).1.outline_color = rgb_to_bgr s.o_color :=
  ⟨rgb_to_bgr_bytes r g b hr hg hb, rgb_to_bgr_invol n hn, rfl, rfl⟩

/-- Witness for C5 at the color 0x123456 and a concrete update. -/
theorem C5_color_permutation_witness :
    rgb_to_bgr 0x123456 = 0x563412 ∧
    rgb_to_bgr (rgb_to_bgr 0x123456) = 0x123456 ∧
    (Update initTextSource sPlain 0 0 true).1.color = rgb_to_bgr 0x123456 := by
  have h := C5_color_permutation 0x12 0x34 0x56 0x123456 (by norm_num)
    (by norm_num) (by norm_num) (by norm_num) initTextSource sPlain 0 0 true
  have h1 := h.1
  norm_num at h1
  exact ⟨h1, h.2.1, h.2.2.1⟩

/-- C8: every alignment string other than "center" and "right" normalizes
to `Left`, every vertical-alignment string other than "center" and
"bottom" normalizes to `Top` (silent defaults, never an error), and
`TextSource::Update` stores exactly these normalizations. -/
theorem C8_unrecognized_alignment_defaults (a v : String) (st : TextSource)
    (s : Settings) (mw mh : ℚ) (ok : Bool) :
    (a ≠ "center" → a ≠ "right" → alignFromStr a = Align.Left) ∧
    (v ≠ "center" → v ≠ "bottom" → valignFromStr v = VAlign.Top) ∧
    (Update st s mw mh ok).1.align = alignFromStr s.align ∧
    (Update st s mw mh ok).1.valign = valignFromStr s.valign := by
  refine ⟨?_, ?_, rfl, rfl⟩
  · intro h1 h2
    unfold alignFromStr
    rw [if_neg h1, if_neg h2]
  · intro h1 h2
    unfold valignFromStr
    rw [if_neg h1, if_neg h2]

/-- Witness for C8 at the unrecognized strings "justify" and "middle". -/
theorem C8_unrecognized_alignment_defaults_witness :
    alignFromStr "justify" = Align.Left ∧
    valignFromStr "middle" = VAlign.Top ∧
    (Update initTextSource sPlain 0 0 true).1.align = Align.Left := by
  have h := C8_unrecognized_alignment_defaults "justify" "middle"
    initTextSource sPlain 0 0 true
  exact ⟨h.1 (by decide) (by decide), h.2.1 (by decide) (by decide),
    h.2.2.1.trans (h.1 (by decide) (by decide) ▸ rfl)⟩

/-- C3 counterexample: with non-empty text, extents-mode on and wrap on,
requested extents (33, 10) produce canvas (34, 32), not (33, 10): the
even-rounding and the [32, 8192] clamp still apply after the extents are
substituted. -/
theorem C3_extents_exact_counterexample :
    pOddExtents.textEmpty = false ∧
    pOddExtents.use_extents = true ∧
    pOddExtents.wrap = true ∧
    CalculateTextSizes pOddExtents 0 0 = (34, 32) ∧
    CalculateTextSizes pOddExtents 0 0 ≠ ((33 : ℤ), (10 : ℤ)) := by
  refine ⟨rfl, rfl, rfl, by decide, by decide⟩

/-- C3 (amended): with non-empty text, extents-mode on and wrap on, the
canvas equals the requested extents after even-rounding and clamping to
[32, 8192]; in particular it equals the requested extents exactly
whenever both requested dimensions are even and lie in [32, 8192]. -/
theorem C3_extents_wrap_canvas (p : TSParams) (mw mh : ℚ)
    (hne : p.textEmpty = false) (hue : p.use_extents = true)
    (hw : p.wrap = true) :
    CalculateTextSizes p mw mh =
      (cclamp (evenize (toLONG p.extents_cx)) 32 8192,
       cclamp (evenize (toLONG p.extents_cy)) 32 8192) ∧
    (32 ≤ p.extents_cx → p.extents_cx ≤ 8192 → p.extents_cx % 2 = 0 →
     32 ≤ p.extents_cy → p.extents_cy ≤ 8192 → p.extents_cy % 2 = 0 →
     CalculateTextSizes p mw mh = ((p.extents_cx : ℤ), (p.extents_cy : ℤ))) := by
  have he : extentsStep p (sizeFromBox p mw mh) =
      (toLONG p.extents_cx, toLONG p.extents_cy) := by
    unfold extentsStep
    rw [hue, hw]
    simp
  have hmain : CalculateTextSizes p mw mh =
      (cclamp (evenize (toLONG p.extents_cx)) 32 8192,
       cclamp (evenize (toLONG p.extents_cy)) 32 8192) := by
    unfold CalculateTextSizes
    rw [he]
  refine ⟨hmain, ?_⟩
  intro hx1 hx2 hx3 hy1 hy2 hy3
  rw [hmain, toLONG_of_lt (show p.extents_cx < 2 ^ 31 by omega),
    toLONG_of_lt (show p.extents_cy < 2 ^ 31 by omega),
    evenize_of_even _ (by rw [Int.even_iff]; omega),
    evenize_of_even _ (by rw [Int.even_iff]; omega),
    cclamp_of_mem _ (by omega) (by omega),
    cclamp_of_mem _ (by omega) (by omega)]

/-- Witness for C3 at extents (100, 50) (both even and in range). -/
theorem C3_extents_wrap_canvas_witness :
    CalculateTextSizes pEvenExtents 0 0 = ((100 : ℤ), (50 : ℤ)) :=
  (C3_extents_wrap_canvas pEvenExtents 0 0 rfl rfl rfl).2 (by decide)
    (by decide) (by decide) (by decide) (by decide) (by decide)

/-- C6: with extents-mode on and wrap off, the extents adjustment of
`CalculateTextSizes` is an asymmetric either/or: if the extents width
exceeds the measured width, the width is replaced and the measured height
kept (regardless of the extents height); only otherwise is the extents
height compared and possibly substituted; `CalculateTextSizes` applies
even-rounding and clamping after this step. -/
theorem C6_extents_no_wrap_asymmetric (p : TSParams) (sz : ℤ × ℤ)
    (mw mh : ℚ) (hue : p.use_extents = true) (hw : p.wrap = false) :
    (toLONG p.extents_cx > sz.1 →
      extentsStep p sz = (toLONG p.extents_cx, sz.2)) ∧
    (toLONG p.extents_cx ≤ sz.1 → toLONG p.extents_cy > sz.2 →
      extentsStep p sz = (sz.1, toLONG p.extents_cy)) ∧
    (toLONG p.extents_cx ≤ sz.1 → toLONG p.extents_cy ≤ sz.2 →
      extentsStep p sz = sz) ∧
    CalculateTextSizes p mw mh =
      (cclamp (evenize (extentsStep p (sizeFromBox p mw mh)).1) 32 8192,
       cclamp (evenize (extentsStep p (sizeFromBox p mw mh)).2) 32 8192) := by
  refine ⟨?_, ?_, ?_, rfl⟩
  · intro h
    unfold extentsStep
    rw [hue, hw]
    simp [h]
  · intro h1 h2
    unfold extentsStep
    rw [hue, hw]
    simp [not_lt.mpr h1, h2]
  · intro h1 h2
    unfold extentsStep
    rw [hue, hw]
    simp [not_lt.mpr h1, not_lt.mpr h2]

/-- Witness for C6: extents (100, 50) against measured size (120, 40):
the width comparison fails, so only the height is substituted. -/
theorem C6_extents_no_wrap_asymmetric_witness :
    extentsStep
      { textEmpty := false, vertical := false, use_extents := true,
        wrap := false, use_outline := false, outline_size := 0,
        face_size := 0, extents_cx := 100, extents_cy := 50 }
      ((120 : ℤ), (40 : ℤ)) = ((120 : ℤ), (50 : ℤ)) := by
  have h := (C6_extents_no_wrap_asymmetric
    { textEmpty := false, vertical := false, use_extents := true,
      wrap := false, use_outline := false, outline_size := 0,
      face_size := 0, extents_cx := 100, extents_cy := 50 }
    ((120 : ℤ), (40 : ℤ)) 0 0 rfl rfl).2.1 (by decide) (by decide)
  exact h

/-- C7: if a texture exists and the computed canvas size equals the stored
dimensions, `RenderText` keeps the same handle and only updates its
contents in place; if the size differs the old handle is destroyed before
the new one is created; if no texture exists one is created. -/
theorem C7_texture_reuse (st : TextSource) (mw mh : ℚ) (ok : Bool) :
    (∀ t, st.tex = some t →
        toLONG st.cx = (CalculateTextSizes (tsParamsOf st) mw mh).1 →
        toLONG st.cy = (CalculateTextSizes (tsParamsOf st) mw mh).2 →
        (RenderText st mw mh ok).1.tex = some t ∧
        (RenderText st mw mh ok).1.cx = st.cx ∧
        (RenderText st mw mh ok).1.cy = st.cy ∧
        (RenderText st mw mh ok).2 = [TexEvent.setImage t]) ∧
    (∀ t, st.tex = some t →
        (toLONG st.cx ≠ (CalculateTextSizes (tsParamsOf st) mw mh).1 ∨
         toLONG st.cy ≠ (CalculateTextSizes (tsParamsOf st) mw mh).2) →
        (RenderText st mw mh ok).2 =
          [TexEvent.destroy t, TexEvent.create st.nextId] ∧
        (ok = true → (RenderText st mw mh ok).1.tex = some st.nextId)) ∧
    (st.tex = none →
        (RenderText st mw mh ok).2 = [TexEvent.create st.nextId]) := by
  refine ⟨?_, ?_, ?_⟩
  · intro t ht h1 h2
    rw [renderText_unfold, ht,
      syncTexture_same t st.cx st.cy st.nextId _ _ ok h1 h2]
    exact ⟨rfl, rfl, rfl, rfl⟩
  · intro t ht hne
    rw [renderText_unfold, ht,
      syncTexture_recreate (some t) st.cx st.cy st.nextId _ _ ok
        (Or.inr hne)]
    refine ⟨rfl, ?_⟩
    intro hok
    simp [hok]
  · intro ht
    rw [renderText_unfold, ht,
      syncTexture_recreate none st.cx st.cy st.nextId _ _ ok (Or.inl rfl)]
    rfl

/-- Witness for C7: a state holding texture 5 at canvas (100, 50) whose
parameters reproduce canvas (100, 50) keeps handle 5 and only updates it
in place. -/
theorem C7_texture_reuse_witness :
    (RenderText stTex 0 0 true).1.tex = some 5 ∧
    (RenderText stTex 0 0 true).2 = [TexEvent.setImage 5] := by
  have h := (C7_texture_reuse stTex 0 0 true).1 5 rfl (by decide) (by decide)
  exact ⟨h.1, h.2.2.2⟩

/-- C9: every state reachable through the public configuration interface
has `use_extents = false`, `wrap = false`, `extents_cx = extents_cy = 0`
(the update operation never assigns them), so the extents adjustment of
the layout code is the identity in every reachable state. -/
theorem C9_extents_unreachable (st : TextSource) (h : Reachable st) :
    st.use_extents = false ∧ st.wrap = false ∧
    st.extents_cx = 0 ∧ st.extents_cy = 0 ∧
    (∀ sz : ℤ × ℤ, extentsStep (tsParamsOf st) sz = sz) := by
  have key : st.use_extents = false ∧ st.wrap = false ∧
      st.extents_cx = 0 ∧ st.extents_cy = 0 := by
    induction h with
    | init s mw mh ok => exact ⟨rfl, rfl, rfl, rfl⟩
    | step s mw mh ok hr ih =>
      obtain ⟨h1, h2, h3, h4⟩ := ih
      obtain ⟨e1, e2, e3, e4, -⟩ := update_fields _ s mw mh ok
      exact ⟨e1.trans h1, e2.trans h2, e3.trans h3, e4.trans h4⟩
  obtain ⟨h1, h2, h3, h4⟩ := key
  refine ⟨h1, h2, h3, h4, fun sz => ?_⟩
  unfold extentsStep
  rw [show (tsParamsOf st).use_extents = st.use_extents from rfl, h1]
  simp

/-- Witness for C9 at the state produced by a first update with a plain
configuration. -/
theorem C9_extents_unreachable_witness :
    (Update initTextSource sPlain 0 0 true).1.use_extents = false ∧
    (Update initTextSource sPlain 0 0 true).1.wrap = false ∧
    (Update initTextSource sPlain 0 0 true).1.extents_cx = 0 ∧
    (Update initTextSource sPlain 0 0 true).1.extents_cy = 0 ∧
    extentsStep (tsParamsOf (Update initTextSource sPlain 0 0 true).1)
      ((77 : ℤ), (99 : ℤ)) = ((77 : ℤ), (99 : ℤ)) := by
  obtain ⟨h1, h2, h3, h4, h5⟩ :=
    C9_extents_unreachable _ (Reachable.init sPlain 0 0 true)
  exact ⟨h1, h2, h3, h4, h5 ((77 : ℤ), (99 : ℤ))⟩

/-- C10: after `RenderText`, the stored dimensions reported by
`get_width`/`get_height` equal the newly computed canvas size, even when
texture creation fails; in the failure case no texture is retained and
the per-frame `Render` draws nothing. -/
theorem C10_reported_size_after_failure (st : TextSource) (mw mh : ℚ)
    (ok : Bool) :
    toLONG (get_width (RenderText st mw mh ok).1) =
      (CalculateTextSizes (tsParamsOf st) mw mh).1 ∧
    toLONG (get_height (RenderText st mw mh ok).1) =
      (CalculateTextSizes (tsParamsOf st) mw mh).2 ∧
    (ok = false →
      (st.tex = none ∨
        toLONG st.cx ≠ (CalculateTextSizes (tsParamsOf st) mw mh).1 ∨
        toLONG st.cy ≠ (CalculateTextSizes (tsParamsOf st) mw mh).2) →
      (RenderText st mw mh ok).1.tex = none ∧
      Render (RenderText st mw mh ok).1 = none) := by
  obtain ⟨⟨-, hx1, hx2⟩, ⟨-, hy1, hy2⟩⟩ := calc_dim_bounds (tsParamsOf st) mw mh
  by_cases hc : st.tex = none ∨
      toLONG st.cx ≠ (CalculateTextSizes (tsParamsOf st) mw mh).1 ∨
      toLONG st.cy ≠ (CalculateTextSizes (tsParamsOf st) mw mh).2
  · rw [renderText_unfold,
      syncTexture_recreate st.tex st.cx st.cy st.nextId _ _ ok hc]
    unfold get_width get_height
    refine ⟨toLONG_toU32 (by omega) (by omega),
      toLONG_toU32 (by omega) (by omega), ?_⟩
    intro hok hbranch
    constructor
    · show (if ok = true then some st.nextId else none) = none
      rw [hok]
      simp
    · apply render_of_tex_none
      show (if ok = true then some st.nextId else none) = none
      rw [hok]
      simp
  · push_neg at hc
    obtain ⟨hne, h1, h2⟩ := hc
    obtain ⟨t, ht⟩ := Option.ne_none_iff_exists'.mp hne
    rw [renderText_unfold, ht,
      syncTexture_same t st.cx st.cy st.nextId _ _ ok h1 h2]
    unfold get_width get_height
    refine ⟨h1, h2, ?_⟩
    intro hok hbranch
    rcases hbranch with hb | hb | hb
    · exact absurd (ht.trans hb) hne
    · exact absurd h1 hb
    · exact absurd h2 hb

/-- Witness for C10: a first render with no existing texture and a failing
texture creation still records the computed canvas size, retains no
texture, and draws nothing. -/
theorem C10_reported_size_after_failure_witness :
    toLONG (get_width (RenderText initTextSource 0 0 false).1) =
      (CalculateTextSizes (tsParamsOf initTextSource) 0 0).1 ∧
    (RenderText initTextSource 0 0 false).1.tex = none ∧
    Render (RenderText initTextSource 0 0 false).1 = none := by
  have h := C10_reported_size_after_failure initTextSource 0 0 false
  exact ⟨h.1, (h.2.2 rfl (Or.inl rfl)).1, (h.2.2 rfl (Or.inl rfl)).2⟩
